import Mathlib

/-!
Verification of the DesignWare HDMI QP bridge driver
(drivers/gpu/drm/bridge/synopsys/dw-hdmi-qp.c).

The driver is embedded shallowly: each C function that the properties
concern becomes a Lean function over explicit state, and every hardware
side effect (register write, register read-modify-write, SCDC access,
work scheduling) is recorded in an explicit trace of actions, so that
ordering properties can be stated about the produced traces.

Machine integers are modelled as `Nat` with explicit `% 256` where the C
code truncates to `u8`.  Blocking waits on the interrupt completion are
modelled by an environment list: one `ByteEnv` entry per byte-level I2C
operation carries whether the 100 ms wait timed out, the latched
interrupt status, and the data register contents.
-/

namespace DwHdmiQp

/-! ### Constants from dw-hdmi-qp.c -/

def DDC_CI_ADDR : Nat := 0x37
def DDC_SEGMENT_ADDR : Nat := 0x30
def SCDC_MIN_SOURCE_VERSION : Nat := 0x1
def HDMI14_MAX_TMDSCLK : Nat := 340000000
def HDMI20_MAX_TMDSRATE : Nat := 600000000
def SCRAMB_POLL_DELAY_MS : Nat := 3000

/-- Modelled from the spec: the generic DDC slave address (`DDC_ADDR` of
the kernel's drm_edid.h, which is not under src/). -/
def DDC_ADDR : Nat := 0x50

/-- Modelled from the spec: SCDC sink-version register offset
(drm_scdc_helper.h, not under src/). -/
def SCDC_SINK_VERSION : Nat := 0x01

/-- Modelled from the spec: SCDC source-version register offset
(drm_scdc_helper.h, not under src/). -/
def SCDC_SOURCE_VERSION : Nat := 0x02

/-! ### Register map

Modelled from the spec's register-map section: the numeric offsets live
in dw-hdmi-qp.h, which is not under src/.  The properties below depend
only on the offsets being pairwise distinct (each register a distinct
name), never on the particular numbers, so representative distinct
stride-4 values are used. -/

def SCRAMB_CONFIG0 : Nat := 0x200
def LINK_CONFIG0 : Nat := 0x204
def HDCP2LOGIC_CONFIG0 : Nat := 0x208
def TIMER_BASE_CONFIG0 : Nat := 0x20C
def PKT_AVI_CONTENTS0 : Nat := 0x400
def PKT_AVI_CONTENTS1 : Nat := 0x404
def PKT_DRMI_CONTENTS0 : Nat := 0x500
def PKT_DRMI_CONTENTS1 : Nat := 0x504
def PKTSCHED_PKT_EN : Nat := 0x600
def PKTSCHED_PKT_CONFIG1 : Nat := 0x604
def I2CM_INTERFACE_CONTROL0 : Nat := 0x1404
def I2CM_INTERFACE_CONTROL1 : Nat := 0x1408
def I2CM_INTERFACE_WRDATA_0_3 : Nat := 0x140C
def I2CM_INTERFACE_RDDATA_0_3 : Nat := 0x1410
def I2CM_CONTROL0 : Nat := 0x1414
def I2CM_FM_SCL_CONFIG0 : Nat := 0x1418
def MAINUNIT_0_INT_MASK_N : Nat := 0x3008
def MAINUNIT_1_INT_STATUS : Nat := 0x3010
def MAINUNIT_1_INT_MASK_N : Nat := 0x3014
def MAINUNIT_1_INT_CLEAR : Nat := 0x3018

/-! Bit fields, likewise modelled from the spec's register map (values in
dw-hdmi-qp.h, not under src/); distinct bits of the respective
registers. -/

def I2CM_OP_DONE_IRQ : Nat := 0x2
def I2CM_READ_REQUEST_IRQ : Nat := 0x4
def I2CM_NACK_RCVD_IRQ : Nat := 0x8
def I2CM_OP_DONE_MASK_N : Nat := 0x2
def I2CM_NACK_RCVD_MASK_N : Nat := 0x8
def I2CM_OP_DONE_CLEAR : Nat := 0x2
def I2CM_NACK_RCVD_CLEAR : Nat := 0x8
def I2CM_SLVADDR : Nat := 0xFE0
def I2CM_ADDR : Nat := 0xFF000
def I2CM_FM_READ : Nat := 0x100000
def I2CM_EXT_READ : Nat := 0x200000
def I2CM_FM_WRITE : Nat := 0x400000
def I2CM_WR_MASK : Nat := 0x700000
def I2CM_FM_EN : Nat := 0x800000
def I2CM_SEG_ADDR : Nat := 0x7F
def I2CM_SEG_PTR : Nat := 0x3F80
def PKTSCHED_AVI_FIELDRATE : Nat := 0x10
def PKTSCHED_DRMI_FIELDRATE : Nat := 0x20
def PKTSCHED_AVI_TX_EN : Nat := 0x20
def PKTSCHED_GCP_TX_EN : Nat := 0x40
def PKTSCHED_DRMI_TX_EN : Nat := 0x80
def HDCP2_BYPASS : Nat := 0x1
def OPMODE_DVI : Nat := 0x2

/-- Modelled from the spec: HDMI_INFOFRAME_SIZE(AVI) of linux/hdmi.h
(not under src/): 4-byte header plus 13-byte AVI payload. -/
def HDMI_INFOFRAME_SIZE_AVI : Nat := 17

/-- Modelled from the spec: HDMI_INFOFRAME_SIZE(DRM) of linux/hdmi.h
(not under src/): 4-byte header plus 26-byte DRM payload. -/
def HDMI_INFOFRAME_SIZE_DRM : Nat := 30

/-! ### Error codes (negated errno values, as returned by the C code) -/

def errAgain : Int := -11
def errIoErr : Int := -5
def errInval : Int := -22
def errNotSupp : Int := -95

/-! ### Hardware-effect traces -/

/-- One observable side effect of the driver.  `wr off v` is
`dw_hdmi_qp_write(hdmi, v, off)` (a plain register write); `mod off m d`
is `dw_hdmi_qp_mod(hdmi, d, m, off)` (`regmap_update_bits`); the rest
are the SCDC helper calls, work-queue operations and PHY/infoframe
callbacks made by the driver. -/
inductive Action where
  | wr (offset val : Nat)
  | mod (offset mask data : Nat)
  | scdc_readb (reg : Nat)
  | scdc_writeb (reg val : Nat)
  | scdc_set_tmds_high (enable : Bool)
  | scdc_set_scrambling (enable : Bool)
  | schedule_scramb_work (delay_ms : Nat)
  | cancel_scramb_work_sync
  | phy_init
  | phy_disable
  | update_infoframes
deriving DecidableEq, Repr

/-- Byte value at index `i` of a C `u8` buffer. -/
def byteAt (buffer : List Nat) (i : Nat) : Nat := buffer.getD i 0 % 256

/-! ### I2C-over-DDC adapter (struct dw_hdmi_qp_i2c) -/

/-- The transaction-scoped fields of `struct dw_hdmi_qp_i2c`. -/
structure I2cCtx where
  slave_reg : Nat
  is_regaddr : Bool
  is_segment : Bool
deriving DecidableEq, Repr

/-- Environment of one byte-level I2C operation: whether
`wait_for_completion_timeout` (100 ms bound) expired, the interrupt
status latched into `i2c->stat` by the IRQ handler, and the value of the
read-data register. -/
structure ByteEnv where
  timeout : Bool
  stat : Nat
  rddata : Nat
deriving DecidableEq, Repr

/-- One I2C message of a batch (`struct i2c_msg`): slave address,
direction flag (`I2C_M_RD`) and data buffer. -/
structure I2cMsg where
  addr : Nat
  read : Bool
  buf : List Nat
deriving DecidableEq, Repr

/-- Result of an adapter operation: the C return value, the hardware
trace produced, the final adapter context, the bytes read back, and the
environment entries not yet consumed. -/
structure OpResult where
  ret : Int
  trace : List Action
  ctx : I2cCtx
  bytes : List Nat
  envs : List ByteEnv
deriving DecidableEq, Repr

/-- Register writes issued by one read-byte iteration before the
blocking wait: program the (auto-incrementing) target register pointer,
then request a standard or an extended-segment read
(dw-hdmi-qp.c:109-117). -/
def read_setup (ctx : I2cCtx) : List Action :=
  [Action.mod I2CM_INTERFACE_CONTROL0 I2CM_ADDR (ctx.slave_reg <<< 12),
   if ctx.is_segment then
     Action.mod I2CM_INTERFACE_CONTROL0 I2CM_WR_MASK I2CM_EXT_READ
   else
     Action.mod I2CM_INTERFACE_CONTROL0 I2CM_WR_MASK I2CM_FM_READ]

/-- Register writes issued by one write-byte iteration before the
blocking wait (dw-hdmi-qp.c:159-163). -/
def write_setup (ctx : I2cCtx) (b : Nat) : List Action :=
  [Action.wr I2CM_INTERFACE_WRDATA_0_3 (b % 256),
   Action.mod I2CM_INTERFACE_CONTROL0 I2CM_ADDR (ctx.slave_reg <<< 12),
   Action.mod I2CM_INTERFACE_CONTROL0 I2CM_WR_MASK I2CM_FM_WRITE]

/-- The `i2c->slave_reg++` post-increment (a `u8` increment). -/
def bump (ctx : I2cCtx) : I2cCtx :=
  { ctx with slave_reg := (ctx.slave_reg + 1) % 256 }

/-- The `while (length--)` loop of `dw_hdmi_qp_i2c_read`
(dw-hdmi-qp.c:106-135).  One `ByteEnv` is consumed per byte. -/
def i2c_read_go : I2cCtx → Nat → List ByteEnv → OpResult
  | ctx, 0, envs => ⟨0, [], ctx, [], envs⟩
  | ctx, n + 1, envs =>
    let env := envs.headD ⟨false, 0, 0⟩
    let envs' := envs.tail
    if env.timeout then
      ⟨errAgain, read_setup ctx ++ [Action.wr I2CM_CONTROL0 0x01], bump ctx,
       [], envs'⟩
    else if env.stat &&& I2CM_NACK_RCVD_IRQ ≠ 0 then
      ⟨errIoErr, read_setup ctx ++ [Action.wr I2CM_CONTROL0 0x01], bump ctx,
       [], envs'⟩
    else
      let r := i2c_read_go (bump ctx) n envs'
      ⟨r.ret,
       read_setup ctx ++ [Action.mod I2CM_INTERFACE_CONTROL0 I2CM_WR_MASK 0]
         ++ r.trace,
       r.ctx, (env.rddata &&& 0xff) :: r.bytes, r.envs⟩

/-- `dw_hdmi_qp_i2c_read` (dw-hdmi-qp.c:94-140). -/
def dw_hdmi_qp_i2c_read (ctx : I2cCtx) (length : Nat) (envs : List ByteEnv) :
    OpResult :=
  let ctx0 := if !ctx.is_regaddr then
      { ctx with slave_reg := 0x00, is_regaddr := true }
    else ctx
  let r := i2c_read_go ctx0 length envs
  if r.ret = 0 then { r with ctx := { r.ctx with is_segment := false } } else r

/-- The `while (length--)` loop of `dw_hdmi_qp_i2c_write`
(dw-hdmi-qp.c:156-180). -/
def i2c_write_go : I2cCtx → List Nat → List ByteEnv → OpResult
  | ctx, [], envs => ⟨0, [], ctx, [], envs⟩
  | ctx, b :: rest, envs =>
    let env := envs.headD ⟨false, 0, 0⟩
    let envs' := envs.tail
    if env.timeout then
      ⟨errAgain, write_setup ctx b ++ [Action.wr I2CM_CONTROL0 0x01], bump ctx,
       [], envs'⟩
    else if env.stat &&& I2CM_NACK_RCVD_IRQ ≠ 0 then
      ⟨errIoErr, write_setup ctx b ++ [Action.wr I2CM_CONTROL0 0x01], bump ctx,
       [], envs'⟩
    else
      let r := i2c_write_go (bump ctx) rest envs'
      ⟨r.ret,
       write_setup ctx b ++ [Action.mod I2CM_INTERFACE_CONTROL0 I2CM_WR_MASK 0]
         ++ r.trace,
       r.ctx, r.bytes, r.envs⟩

/-- `dw_hdmi_qp_i2c_write` (dw-hdmi-qp.c:142-183).  When no register
pointer is established yet, the first buffer byte becomes the register
address and only the remaining bytes are transmitted.  (The C code is
never entered with an empty buffer: `dw_hdmi_qp_i2c_xfer` rejects
zero-length messages up front; `List.headD _ 0` covers that dead
case.) -/
def dw_hdmi_qp_i2c_write (ctx : I2cCtx) (buf : List Nat)
    (envs : List ByteEnv) : OpResult :=
  if !ctx.is_regaddr then
    i2c_write_go { ctx with slave_reg := buf.headD 0 % 256, is_regaddr := true }
      buf.tail envs
  else
    i2c_write_go ctx buf envs

/-- The per-message `for` loop of `dw_hdmi_qp_i2c_xfer`
(dw-hdmi-qp.c:230-247), including the segment-pointer special case and
the break on a negative per-message result. -/
def xfer_msgs : I2cCtx → List I2cMsg → List ByteEnv → OpResult
  | ctx, [], envs => ⟨0, [], ctx, [], envs⟩
  | ctx, m :: rest, envs =>
    if m.addr = DDC_SEGMENT_ADDR ∧ m.buf.length = 1 then
      let t : List Action :=
        [Action.mod I2CM_INTERFACE_CONTROL1 I2CM_SEG_ADDR DDC_SEGMENT_ADDR,
         Action.mod I2CM_INTERFACE_CONTROL1 I2CM_SEG_PTR (byteAt m.buf 0 <<< 7)]
      let r := xfer_msgs { ctx with is_segment := true } rest envs
      ⟨r.ret, t ++ r.trace, r.ctx, r.bytes, r.envs⟩
    else
      let r := if m.read then dw_hdmi_qp_i2c_read ctx m.buf.length envs
               else dw_hdmi_qp_i2c_write ctx m.buf envs
      if r.ret < 0 then r
      else
        let r2 := xfer_msgs r.ctx rest r.envs
        ⟨r2.ret, r.trace ++ r2.trace, r2.ctx, r.bytes ++ r2.bytes, r2.envs⟩

/-- Result of a whole transfer batch: C return value, trace, final
context. -/
structure XferResult where
  ret : Int
  trace : List Action
  ctx : I2cCtx
deriving DecidableEq, Repr

/-- `dw_hdmi_qp_i2c_xfer` (dw-hdmi-qp.c:185-257).  `u8 addr =
msgs[0].addr` truncates the (16-bit) message address to a byte. -/
def dw_hdmi_qp_i2c_xfer (ctx : I2cCtx) (msgs : List I2cMsg)
    (envs : List ByteEnv) : XferResult :=
  let m0 := msgs.headD ⟨0, false, []⟩
  let addr := m0.addr % 256
  if addr = DDC_CI_ADDR then
    ⟨errNotSupp, [], ctx⟩
  else if msgs.any (fun m => m.buf.length == 0) then
    ⟨errNotSupp, [], ctx⟩
  else
    let addr2 := if addr = DDC_SEGMENT_ADDR ∧ m0.buf.length = 1 then DDC_ADDR
                 else addr
    let pre : List Action :=
      [Action.mod MAINUNIT_1_INT_MASK_N
         (I2CM_NACK_RCVD_MASK_N ||| I2CM_OP_DONE_MASK_N)
         (I2CM_NACK_RCVD_MASK_N ||| I2CM_OP_DONE_MASK_N),
       Action.mod I2CM_INTERFACE_CONTROL0 I2CM_SLVADDR (addr2 <<< 5)]
    let r := xfer_msgs { ctx with is_regaddr := false, is_segment := false }
      msgs envs
    let post : List Action :=
      [Action.mod MAINUNIT_1_INT_MASK_N
         (I2CM_OP_DONE_MASK_N ||| I2CM_NACK_RCVD_MASK_N) 0]
    ⟨if r.ret = 0 then (msgs.length : Int) else r.ret,
     pre ++ r.trace ++ post, r.ctx⟩

/-! ### Interrupt dispatcher -/

/-- Result of the top-half interrupt handler: the value latched into
`i2c->stat`, the trace, how many times the completion was signalled, and
whether IRQ_HANDLED was returned. -/
structure IrqResult where
  stat : Nat
  trace : List Action
  completes : Nat
  handled : Bool
deriving DecidableEq, Repr

/-- `dw_hdmi_qp_main_hardirq` (dw-hdmi-qp.c:683-703), as a function of
the value read from `MAINUNIT_1_INT_STATUS`. -/
def dw_hdmi_qp_main_hardirq (stat : Nat) : IrqResult :=
  let istat := stat &&& (I2CM_OP_DONE_IRQ ||| I2CM_READ_REQUEST_IRQ |||
    I2CM_NACK_RCVD_IRQ)
  if istat ≠ 0 then
    ⟨istat, [Action.wr MAINUNIT_1_INT_CLEAR istat], 1, stat != 0⟩
  else
    ⟨istat, [], 0, stat != 0⟩

/-! ### Infoframe encoder -/

/-- Inner `for (j = 0; j < 4; j++)` loop of
`dw_hdmi_qp_config_avi_infoframe` (dw-hdmi-qp.c:321-327), iterated by
remaining-iteration count `f` (so `j < 4` becomes `f = 0`); returns the
accumulated word `val`.  The `break` on `i * 4 + j >= 14` stops the
loop keeping the current `val`. -/
def avi_inner (buffer : List Nat) (i : Nat) : Nat → Nat → Nat → Nat
  | 0, _, val => val
  | f + 1, j, val =>
    if i * 4 + j ≥ 14 then val
    else
      avi_inner buffer i f (j + 1)
        ((if j = 0 then byteAt buffer (i * 4 + j + 3) else val) |||
          byteAt buffer (i * 4 + j + 3) <<< (8 * j))

/-- Outer `for (i = 0; i < 4; i++)` loop of
`dw_hdmi_qp_config_avi_infoframe` (dw-hdmi-qp.c:320-330), iterated by
remaining-iteration count; `val` is threaded across iterations exactly
as the C local is. -/
def avi_outer (buffer : List Nat) : Nat → Nat → Nat → List Action
  | 0, _, _ => []
  | f + 1, i, val =>
    let v := avi_inner buffer i 4 0 val
    Action.wr (PKT_AVI_CONTENTS1 + i * 4) v :: avi_outer buffer f (i + 1) v

/-- `dw_hdmi_qp_config_avi_infoframe` (dw-hdmi-qp.c:303-338): C return
value and hardware trace. -/
def dw_hdmi_qp_config_avi_infoframe (buffer : List Nat) :
    Int × List Action :=
  if buffer.length ≠ HDMI_INFOFRAME_SIZE_AVI then (errInval, [])
  else
    (0,
     Action.wr PKT_AVI_CONTENTS0 (byteAt buffer 1 <<< 8 ||| byteAt buffer 2 <<< 16)
       :: avi_outer buffer 4 0 0
       ++ [Action.mod PKTSCHED_PKT_CONFIG1 PKTSCHED_AVI_FIELDRATE 0,
           Action.mod PKTSCHED_PKT_EN
             (PKTSCHED_AVI_TX_EN ||| PKTSCHED_GCP_TX_EN)
             (PKTSCHED_AVI_TX_EN ||| PKTSCHED_GCP_TX_EN)])

/-- Body loop `for (i = 0; i <= buffer[2]; i++)` of
`dw_hdmi_qp_config_drm_infoframe` (dw-hdmi-qp.c:355-363), iterated by
remaining-iteration count `k` (invoked with `k = n + 1` at `i = 0`,
where `n` is the value of `buffer[2]`, so the loop runs exactly for
`i = 0 .. n`). -/
def drm_body (buffer : List Nat) (n : Nat) : Nat → Nat → Nat → List Action
  | _, _, 0 => []
  | i, val, k + 1 =>
    let b := byteAt buffer (3 + i)
    let v := (if i % 4 = 0 then b else val) ||| b <<< (i % 4 * 8)
    (if i % 4 = 3 ∨ i = n then
        [Action.wr (PKT_DRMI_CONTENTS1 + i / 4 * 4) v]
      else []) ++ drm_body buffer n (i + 1) v k

/-- `dw_hdmi_qp_config_drm_infoframe` (dw-hdmi-qp.c:340-370): C return
value and hardware trace. -/
def dw_hdmi_qp_config_drm_infoframe (buffer : List Nat) :
    Int × List Action :=
  if buffer.length ≠ HDMI_INFOFRAME_SIZE_DRM then (errInval, [])
  else
    (0,
     Action.mod PKTSCHED_PKT_EN PKTSCHED_DRMI_TX_EN 0
       :: Action.wr PKT_DRMI_CONTENTS0
            (byteAt buffer 1 <<< 8 ||| byteAt buffer 2 <<< 16)
       :: (drm_body buffer (byteAt buffer 2) 0 0 (byteAt buffer 2 + 1)
           ++ [Action.mod PKTSCHED_PKT_CONFIG1 PKTSCHED_DRMI_FIELDRATE 0,
               Action.mod PKTSCHED_PKT_EN PKTSCHED_DRMI_TX_EN
                 PKTSCHED_DRMI_TX_EN]))

/-- Buffer indices dereferenced by the `drm_body` loop when started at
index `i` with `k` iterations remaining: each iteration reads
`buffer[3 + i]`. -/
def drm_body_indices : Nat → Nat → List Nat
  | _, 0 => []
  | i, k + 1 => (3 + i) :: drm_body_indices (i + 1) k

/-! ### Link / scrambling state machine -/

/-- Connector status (`enum drm_connector_status`). -/
inductive ConnStatus where
  | connected
  | disconnected
  | unknown
deriving DecidableEq, Repr

/-- The display-info bits of the bound connector that this driver
reads. -/
structure DisplayInfo where
  is_hdmi : Bool
  scdc_supported : Bool
  scrambling_supported : Bool
deriving DecidableEq, Repr

/-- The bound `struct drm_connector`, restricted to the fields this
driver reads. -/
structure Connector where
  info : DisplayInfo
  status : ConnStatus
deriving DecidableEq, Repr

/-- The `struct dw_hdmi_qp` fields driving the scrambling state
machine: the bound connector (nullable), the scrambling-enabled flag,
and whether the periodic recheck work is armed (the pending state of
`scramb_work`). -/
structure HdmiState where
  connector : Option Connector
  scramb_enabled : Bool
  work_scheduled : Bool
deriving DecidableEq, Repr

/-- `dw_hdmi_qp_supports_scrambling` (dw-hdmi-qp.c:372-384).  The C
code dereferences `hdmi->connector` unconditionally; callers guarantee
a bound connector, so the `none` case is the dead branch. -/
def dw_hdmi_qp_supports_scrambling (st : HdmiState) : Bool :=
  match st.connector with
  | none => false
  | some c =>
    if !c.info.is_hdmi then false
    else if !c.info.scdc_supported || !c.info.scrambling_supported then false
    else true

/-- `dw_hdmi_qp_set_scramb` (dw-hdmi-qp.c:386-395). -/
def dw_hdmi_qp_set_scramb (st : HdmiState) : HdmiState × List Action :=
  ({ st with work_scheduled := true },
   [Action.scdc_set_tmds_high true,
    Action.scdc_set_scrambling true,
    Action.schedule_scramb_work SCRAMB_POLL_DELAY_MS])

/-- `dw_hdmi_qp_enable_scramb` (dw-hdmi-qp.c:406-421).  `sink_version`
is the byte returned by the SCDC sink-version read. -/
def dw_hdmi_qp_enable_scramb (st : HdmiState) (sink_version : Nat) :
    HdmiState × List Action :=
  if !dw_hdmi_qp_supports_scrambling st then (st, [])
  else
    let s := dw_hdmi_qp_set_scramb st
    ({ s.1 with scramb_enabled := true },
     [Action.scdc_readb SCDC_SINK_VERSION,
      Action.scdc_writeb SCDC_SOURCE_VERSION
        (min (sink_version % 256) SCDC_MIN_SOURCE_VERSION)]
       ++ s.2 ++ [Action.wr SCRAMB_CONFIG0 1])

/-- `dw_hdmi_qp_disable_scramb` (dw-hdmi-qp.c:423-439).
`cancel_delayed_work_sync` is modelled as an action that also clears
the armed-work flag (its contract: on return no recheck is pending or
running).  The C code dereferences `hdmi->connector` unconditionally;
the `none` default again covers only the dead branch. -/
def dw_hdmi_qp_disable_scramb (st : HdmiState) : HdmiState × List Action :=
  if !st.scramb_enabled then (st, [])
  else
    let st1 : HdmiState :=
      { st with scramb_enabled := false, work_scheduled := false }
    let base : List Action :=
      [Action.cancel_scramb_work_sync, Action.wr SCRAMB_CONFIG0 0]
    let connected : Bool :=
      match st.connector with
      | some c => decide (c.status ≠ ConnStatus.disconnected)
      | none => false
    if connected then
      (st1, base ++ [Action.scdc_set_scrambling false,
                     Action.scdc_set_tmds_high false])
    else (st1, base)

/-- `dw_hdmi_qp_bridge_atomic_enable` (dw-hdmi-qp.c:441-476).
`new_connector` is what `drm_atomic_get_new_connector_for_encoder`
returns, `have_conn_state` whether
`drm_atomic_get_new_connector_state` finds a state, `tmds_char_rate`
the negotiated `conn_state->hdmi.tmds_char_rate`, and `sink_version`
the SCDC sink-version byte used on the scrambling path. -/
def dw_hdmi_qp_bridge_atomic_enable (st : HdmiState)
    (new_connector : Option Connector) (have_conn_state : Bool)
    (tmds_char_rate : Nat) (sink_version : Nat) : HdmiState × List Action :=
  let st1 : HdmiState := { st with connector := new_connector }
  match new_connector with
  | none => (st1, [])
  | some c =>
    if !have_conn_state then (st1, [])
    else
      let scr :=
        if c.info.is_hdmi then
          if tmds_char_rate > HDMI14_MAX_TMDSCLK then
            dw_hdmi_qp_enable_scramb st1 sink_version
          else (st1, [])
        else (st1, [])
      let op_mode := if c.info.is_hdmi then 0 else OPMODE_DVI
      (scr.1,
       scr.2 ++ [Action.phy_init,
                 Action.mod HDCP2LOGIC_CONFIG0 HDCP2_BYPASS HDCP2_BYPASS,
                 Action.mod LINK_CONFIG0 OPMODE_DVI op_mode,
                 Action.update_infoframes])

/-- `dw_hdmi_qp_bridge_atomic_disable` (dw-hdmi-qp.c:478-487). -/
def dw_hdmi_qp_bridge_atomic_disable (st : HdmiState) :
    HdmiState × List Action :=
  let d := dw_hdmi_qp_disable_scramb st
  ({ d.1 with connector := none }, d.2 ++ [Action.phy_disable])

/-! ### Mode validation -/

/-- `enum drm_mode_status`, restricted to the two values this driver
returns. -/
inductive ModeStatus where
  | ok
  | clockHigh
deriving DecidableEq, Repr

/-- `dw_hdmi_qp_bridge_tmds_char_rate_valid` (dw-hdmi-qp.c:612-625). -/
def dw_hdmi_qp_bridge_tmds_char_rate_valid (rate : Nat) : ModeStatus :=
  if rate > HDMI20_MAX_TMDSRATE then ModeStatus.clockHigh
  else ModeStatus.ok

/-! ## Claim theorems -/

/-- Claim C6: the TMDS character-rate validity callback accepts any rate
less than or equal to 600000000 (returns mode-OK) and rejects any rate
strictly greater with a clock-too-high status; in particular 600000000
is accepted and 600000001 is rejected. -/
theorem claim_C6_tmds_rate_valid :
    (∀ rate : Nat,
      (dw_hdmi_qp_bridge_tmds_char_rate_valid rate = ModeStatus.ok ↔
        rate ≤ HDMI20_MAX_TMDSRATE) ∧
      (dw_hdmi_qp_bridge_tmds_char_rate_valid rate = ModeStatus.clockHigh ↔
        rate > HDMI20_MAX_TMDSRATE)) ∧
    dw_hdmi_qp_bridge_tmds_char_rate_valid 600000000 = ModeStatus.ok ∧
    dw_hdmi_qp_bridge_tmds_char_rate_valid 600000001 = ModeStatus.clockHigh := by
  refine ⟨fun rate => ?_, by decide, by decide⟩
  unfold dw_hdmi_qp_bridge_tmds_char_rate_valid
  by_cases h : rate > HDMI20_MAX_TMDSRATE
  · simp [h]
  · simp [h]
    omega

/-- Claim C7: the interrupt handler latches the status masked to the
three I2C bits; when the masked value is nonzero it writes exactly those
bits to the write-to-clear register and signals the completion exactly
once; it returns the handled indication if and only if any bit of the
unmasked status was set, and otherwise clears and signals nothing. -/
theorem claim_C7_hardirq (stat : Nat) :
    (stat &&& (I2CM_OP_DONE_IRQ ||| I2CM_READ_REQUEST_IRQ |||
        I2CM_NACK_RCVD_IRQ) ≠ 0 →
      (dw_hdmi_qp_main_hardirq stat).trace =
        [Action.wr MAINUNIT_1_INT_CLEAR
          (stat &&& (I2CM_OP_DONE_IRQ ||| I2CM_READ_REQUEST_IRQ |||
            I2CM_NACK_RCVD_IRQ))] ∧
      (dw_hdmi_qp_main_hardirq stat).completes = 1) ∧
    (stat &&& (I2CM_OP_DONE_IRQ ||| I2CM_READ_REQUEST_IRQ |||
        I2CM_NACK_RCVD_IRQ) = 0 →
      (dw_hdmi_qp_main_hardirq stat).trace = [] ∧
      (dw_hdmi_qp_main_hardirq stat).completes = 0) ∧
    ((dw_hdmi_qp_main_hardirq stat).handled = true ↔ stat ≠ 0) := by
  unfold dw_hdmi_qp_main_hardirq
  by_cases h : stat &&& (I2CM_OP_DONE_IRQ ||| I2CM_READ_REQUEST_IRQ |||
      I2CM_NACK_RCVD_IRQ) = 0 <;> simp [h]

/-- Witness for C7: an I2C operation-done status (bit value 2) is
cleared and signalled once; an unrelated status (16) is reported
handled without clearing or signalling. -/
theorem claim_C7_hardirq_witness :
    (dw_hdmi_qp_main_hardirq 2).completes = 1 ∧
    (dw_hdmi_qp_main_hardirq 16).trace = [] ∧
    (dw_hdmi_qp_main_hardirq 16).completes = 0 ∧
    ((dw_hdmi_qp_main_hardirq 16).handled = true ↔ (16 : Nat) ≠ 0) :=
  ⟨((claim_C7_hardirq 2).1 (by decide)).2,
   ((claim_C7_hardirq 16).2.1 (by decide)).1,
   ((claim_C7_hardirq 16).2.1 (by decide)).2,
   (claim_C7_hardirq 16).2.2⟩

/-- Claim C2: a transfer batch whose (byte-truncated) first-message
address is the DDC/CI command-and-control address 0x37, or containing
any zero-length message, fails with a capability-not-supported code and
produces no register writes at all. -/
theorem claim_C2_xfer_rejects (ctx : I2cCtx) (msgs : List I2cMsg)
    (envs : List ByteEnv)
    (h : (msgs.headD ⟨0, false, []⟩).addr % 256 = DDC_CI_ADDR ∨
      ∃ m ∈ msgs, m.buf.length = 0) :
    (dw_hdmi_qp_i2c_xfer ctx msgs envs).ret = errNotSupp ∧
    (dw_hdmi_qp_i2c_xfer ctx msgs envs).trace = [] := by
  simp only [dw_hdmi_qp_i2c_xfer]
  rcases h with h | h
  · rw [if_pos h]
    exact ⟨rfl, rfl⟩
  · have hany : msgs.any (fun m => m.buf.length == 0) = true := by
      rcases h with ⟨m, hm, hlen⟩
      exact List.any_eq_true.mpr ⟨m, hm, by simp [hlen]⟩
    by_cases h0 : (msgs.headD ⟨0, false, []⟩).addr % 256 = DDC_CI_ADDR
    · rw [if_pos h0]
      exact ⟨rfl, rfl⟩
    · rw [if_neg h0, if_pos hany]
      exact ⟨rfl, rfl⟩

/-- Witness for C2: a one-message batch to 0x37 is rejected, and a batch
with an empty-payload message to 0x50 is rejected without any register
write. -/
theorem claim_C2_xfer_rejects_witness :
    (dw_hdmi_qp_i2c_xfer ⟨0, false, false⟩ [⟨0x37, false, [1]⟩] []).ret =
      errNotSupp ∧
    (dw_hdmi_qp_i2c_xfer ⟨0, false, false⟩ [⟨0x37, false, [1]⟩] []).trace =
      [] ∧
    (dw_hdmi_qp_i2c_xfer ⟨0, false, false⟩ [⟨0x50, false, []⟩] []).ret =
      errNotSupp ∧
    (dw_hdmi_qp_i2c_xfer ⟨0, false, false⟩ [⟨0x50, false, []⟩] []).trace =
      [] := by
  have h1 := claim_C2_xfer_rejects ⟨0, false, false⟩ [⟨0x37, false, [1]⟩] []
    (Or.inl (by decide))
  have h2 := claim_C2_xfer_rejects ⟨0, false, false⟩ [⟨0x50, false, []⟩] []
    (Or.inr ⟨⟨0x50, false, []⟩, by simp, rfl⟩)
  exact ⟨h1.1, h1.2, h2.1, h2.2⟩

/-- Claim C5: an AVI infoframe encode with a buffer of exactly the AVI
wire size succeeds, packs bytes 1-2 into the control register and the
14 body bytes little-endian four-at-a-time into four successive content
registers, and finally sets both the AVI and the general-control-packet
transmit-enable bits; any other length fails with invalid-argument and
produces zero register writes. -/
theorem claim_C5_avi_infoframe (buffer : List Nat) :
    (buffer.length = HDMI_INFOFRAME_SIZE_AVI →
      (dw_hdmi_qp_config_avi_infoframe buffer).1 = 0 ∧
      (dw_hdmi_qp_config_avi_infoframe buffer).2 =
        [Action.wr PKT_AVI_CONTENTS0
           (byteAt buffer 1 <<< 8 ||| byteAt buffer 2 <<< 16),
         Action.wr PKT_AVI_CONTENTS1
           (byteAt buffer 3 ||| byteAt buffer 4 <<< 8 |||
             byteAt buffer 5 <<< 16 ||| byteAt buffer 6 <<< 24),
         Action.wr (PKT_AVI_CONTENTS1 + 4)
           (byteAt buffer 7 ||| byteAt buffer 8 <<< 8 |||
             byteAt buffer 9 <<< 16 ||| byteAt buffer 10 <<< 24),
         Action.wr (PKT_AVI_CONTENTS1 + 8)
           (byteAt buffer 11 ||| byteAt buffer 12 <<< 8 |||
             byteAt buffer 13 <<< 16 ||| byteAt buffer 14 <<< 24),
         Action.wr (PKT_AVI_CONTENTS1 + 12)
           (byteAt buffer 15 ||| byteAt buffer 16 <<< 8),
         Action.mod PKTSCHED_PKT_CONFIG1 PKTSCHED_AVI_FIELDRATE 0,
         Action.mod PKTSCHED_PKT_EN
           (PKTSCHED_AVI_TX_EN ||| PKTSCHED_GCP_TX_EN)
           (PKTSCHED_AVI_TX_EN ||| PKTSCHED_GCP_TX_EN)]) ∧
    (buffer.length ≠ HDMI_INFOFRAME_SIZE_AVI →
      (dw_hdmi_qp_config_avi_infoframe buffer).1 = errInval ∧
      (dw_hdmi_qp_config_avi_infoframe buffer).2 = []) := by
  constructor
  · intro h
    simp only [dw_hdmi_qp_config_avi_infoframe]
    rw [if_neg (by omega)]
    refine ⟨rfl, ?_⟩
    norm_num [avi_outer, avi_inner, PKT_AVI_CONTENTS1]
  · intro h
    simp only [dw_hdmi_qp_config_avi_infoframe]
    rw [if_pos h]
    exact ⟨rfl, rfl⟩

/-- Witness for C5: both branches evaluated on concrete inputs — a
17-byte buffer succeeds, a 16-byte one fails with invalid-argument and
an empty trace. -/
theorem claim_C5_avi_infoframe_witness :
    (dw_hdmi_qp_config_avi_infoframe (List.range 17)).1 = 0 ∧
    (dw_hdmi_qp_config_avi_infoframe (List.range 16)).1 = errInval ∧
    (dw_hdmi_qp_config_avi_infoframe (List.range 16)).2 = [] := by
  have h1 := (claim_C5_avi_infoframe (List.range 17)).1 (by decide)
  have h2 := (claim_C5_avi_infoframe (List.range 16)).2 (by decide)
  exact ⟨h1.1, h2.1, h2.2⟩

/-- Every action emitted by the DRM body-packing loop is a plain
register write (no read-modify-write, in particular no touch of the
packet-scheduler enable register). -/
theorem drm_body_writes_only (buffer : List Nat) (n : Nat) :
    ∀ k i val a, a ∈ drm_body buffer n i val k →
      ∃ off v, a = Action.wr off v := by
  intro k
  induction k with
  | zero =>
    intro i val a ha
    simp [drm_body] at ha
  | succ k ih =>
    intro i val a ha
    simp only [drm_body] at ha
    rcases List.mem_append.mp ha with h | h
    · by_cases hc : i % 4 = 3 ∨ i = n
      · rw [if_pos hc] at h
        simp at h
        exact ⟨_, _, h⟩
      · rw [if_neg hc] at h
        simp at h
    · exact ih (i + 1) _ a h

/-- Claim C4: for a buffer of the valid DRM wire length, the produced
write sequence starts by clearing the DRM transmit-enable bit, ends by
setting it again, and no action in between touches the packet-scheduler
enable register — while the control word and every body word produced
by the packing loop lie strictly between the clear and the set. -/
theorem claim_C4_drm_order (buffer : List Nat)
    (h : buffer.length = HDMI_INFOFRAME_SIZE_DRM) :
    ∃ mid,
      (dw_hdmi_qp_config_drm_infoframe buffer).2 =
        Action.mod PKTSCHED_PKT_EN PKTSCHED_DRMI_TX_EN 0 :: mid ++
          [Action.mod PKTSCHED_PKT_EN PKTSCHED_DRMI_TX_EN
            PKTSCHED_DRMI_TX_EN] ∧
      Action.wr PKT_DRMI_CONTENTS0
        (byteAt buffer 1 <<< 8 ||| byteAt buffer 2 <<< 16) ∈ mid ∧
      (∀ a ∈ drm_body buffer (byteAt buffer 2) 0 0 (byteAt buffer 2 + 1),
        a ∈ mid) ∧
      (∀ mask data, Action.mod PKTSCHED_PKT_EN mask data ∉ mid) := by
  refine ⟨Action.wr PKT_DRMI_CONTENTS0
      (byteAt buffer 1 <<< 8 ||| byteAt buffer 2 <<< 16)
      :: (drm_body buffer (byteAt buffer 2) 0 0 (byteAt buffer 2 + 1)
        ++ [Action.mod PKTSCHED_PKT_CONFIG1 PKTSCHED_DRMI_FIELDRATE 0]),
    ?_, ?_, ?_, ?_⟩
  · simp only [dw_hdmi_qp_config_drm_infoframe]
    rw [if_neg (by omega)]
    simp
  · simp
  · intro a ha
    simp [ha]
  · intro mask data hmem
    simp only [List.mem_cons, List.mem_append, List.mem_singleton] at hmem
    rcases hmem with h1 | h2 | h3
    · exact Action.noConfusion h1
    · obtain ⟨off, v, hv⟩ := drm_body_writes_only buffer (byteAt buffer 2)
        (byteAt buffer 2 + 1) 0 0 _ h2
      exact Action.noConfusion hv
    · rcases h3 with h3 | h3
      · injection h3 with e1 e2 e3
        exact absurd e1 (by decide)
      · simp at h3

/-- Witness for C4: the decomposition evaluated on the all-zero 30-byte
buffer. -/
theorem claim_C4_drm_order_witness :
    ∃ mid,
      (dw_hdmi_qp_config_drm_infoframe (List.replicate 30 0)).2 =
        Action.mod PKTSCHED_PKT_EN PKTSCHED_DRMI_TX_EN 0 :: mid ++
          [Action.mod PKTSCHED_PKT_EN PKTSCHED_DRMI_TX_EN
            PKTSCHED_DRMI_TX_EN] := by
  obtain ⟨mid, h1, -, -, -⟩ :=
    claim_C4_drm_order (List.replicate 30 0) (by decide)
  exact ⟨mid, h1⟩

/-- The indices dereferenced by the DRM body loop form the contiguous
range from `3 + i` of length `k`. -/
theorem drm_body_indices_mem :
    ∀ k i j, j ∈ drm_body_indices i k ↔ 3 + i ≤ j ∧ j < 3 + i + k := by
  intro k
  induction k with
  | zero =>
    intro i j
    simp [drm_body_indices]
  | succ k ih =>
    intro i j
    simp [drm_body_indices, ih]
    omega

/-- The DRM body loop depends on the buffer only through the bytes at
the indices in `drm_body_indices`. -/
theorem drm_body_congr (n : Nat) :
    ∀ k i val buffer buffer',
      (∀ j ∈ drm_body_indices i k, byteAt buffer j = byteAt buffer' j) →
      drm_body buffer n i val k = drm_body buffer' n i val k := by
  intro k
  induction k with
  | zero =>
    intro i val b b' _
    rfl
  | succ k ih =>
    intro i val b b' hagree
    have h3 : byteAt b (3 + i) = byteAt b' (3 + i) :=
      hagree _ (by simp [drm_body_indices])
    simp only [drm_body, h3]
    rw [ih (i + 1) _ b b'
      (fun j hj => hagree j (List.mem_cons_of_mem _ hj))]

/-- Claim C10: for a buffer accepted by the DRM length check, the body
loop reads exactly the bytes at indices 3 through 3 plus the value of
byte index 2, and all of those indices are within the validated length
if and only if the value of byte index 2 is at most the validated
length minus 4 (the length check itself does not bound that byte). -/
theorem claim_C10_drm_inbounds (buffer : List Nat)
    (h : buffer.length = HDMI_INFOFRAME_SIZE_DRM) :
    (∀ buffer' val,
      (∀ j ∈ drm_body_indices 0 (byteAt buffer 2 + 1),
        byteAt buffer j = byteAt buffer' j) →
      drm_body buffer (byteAt buffer 2) 0 val (byteAt buffer 2 + 1) =
        drm_body buffer' (byteAt buffer 2) 0 val (byteAt buffer 2 + 1)) ∧
    ((∀ j ∈ drm_body_indices 0 (byteAt buffer 2 + 1), j < buffer.length) ↔
      byteAt buffer 2 ≤ buffer.length - 4) := by
  constructor
  · intro buffer' val hagree
    exact drm_body_congr (byteAt buffer 2) (byteAt buffer 2 + 1) 0 val
      buffer buffer' hagree
  · rw [h]
    unfold HDMI_INFOFRAME_SIZE_DRM
    constructor
    · intro hall
      have := hall (3 + byteAt buffer 2)
        ((drm_body_indices_mem _ _ _).mpr (by omega))
      omega
    · intro hb j hj
      have := (drm_body_indices_mem _ _ _).mp hj
      omega

/-- Witness for C10: two concrete 30-byte buffers that agree on the
single index the loop reads (byte 2 is 0, so only index 3) but differ
elsewhere produce identical body traces, and the bound equivalence
holds concretely. -/
theorem claim_C10_drm_inbounds_witness :
    drm_body (List.replicate 30 0)
        (byteAt (List.replicate 30 0) 2) 0 0
        (byteAt (List.replicate 30 0) 2 + 1) =
      drm_body (List.replicate 29 0 ++ [255])
        (byteAt (List.replicate 30 0) 2) 0 0
        (byteAt (List.replicate 30 0) 2 + 1) ∧
    byteAt (List.replicate 30 0) 2 ≤ (List.replicate 30 0).length - 4 := by
  have hmain := claim_C10_drm_inbounds (List.replicate 30 0) (by decide)
  refine ⟨hmain.1 (List.replicate 29 0 ++ [255]) 0 (by decide), ?_⟩
  exact hmain.2.mp (by decide)

/-- Claim C1: for every per-byte I2C operation of a batch (read or
write): on a completion timeout the operation writes the soft-reset
value 0x01 to the I2C master control register and fails the transfer
with the timeout error; on a latched NACK-received status bit it writes
the same soft-reset value and fails with the I/O error; otherwise the
byte is transferred and the write-strobe field is cleared before the
next byte is processed. -/
theorem claim_C1_per_byte (ctx : I2cCtx) (env : ByteEnv)
    (envs : List ByteEnv) (n b : Nat) (rest : List Nat) :
    (env.timeout = true →
      i2c_read_go ctx (n + 1) (env :: envs) =
        ⟨errAgain, read_setup ctx ++ [Action.wr I2CM_CONTROL0 0x01],
         bump ctx, [], envs⟩ ∧
      i2c_write_go ctx (b :: rest) (env :: envs) =
        ⟨errAgain, write_setup ctx b ++ [Action.wr I2CM_CONTROL0 0x01],
         bump ctx, [], envs⟩) ∧
    (env.timeout = false → env.stat &&& I2CM_NACK_RCVD_IRQ ≠ 0 →
      i2c_read_go ctx (n + 1) (env :: envs) =
        ⟨errIoErr, read_setup ctx ++ [Action.wr I2CM_CONTROL0 0x01],
         bump ctx, [], envs⟩ ∧
      i2c_write_go ctx (b :: rest) (env :: envs) =
        ⟨errIoErr, write_setup ctx b ++ [Action.wr I2CM_CONTROL0 0x01],
         bump ctx, [], envs⟩) ∧
    (env.timeout = false → env.stat &&& I2CM_NACK_RCVD_IRQ = 0 →
      i2c_read_go ctx (n + 1) (env :: envs) =
        ⟨(i2c_read_go (bump ctx) n envs).ret,
         read_setup ctx ++
           [Action.mod I2CM_INTERFACE_CONTROL0 I2CM_WR_MASK 0] ++
           (i2c_read_go (bump ctx) n envs).trace,
         (i2c_read_go (bump ctx) n envs).ctx,
         (env.rddata &&& 0xff) :: (i2c_read_go (bump ctx) n envs).bytes,
         (i2c_read_go (bump ctx) n envs).envs⟩ ∧
      i2c_write_go ctx (b :: rest) (env :: envs) =
        ⟨(i2c_write_go (bump ctx) rest envs).ret,
         write_setup ctx b ++
           [Action.mod I2CM_INTERFACE_CONTROL0 I2CM_WR_MASK 0] ++
           (i2c_write_go (bump ctx) rest envs).trace,
         (i2c_write_go (bump ctx) rest envs).ctx,
         (i2c_write_go (bump ctx) rest envs).bytes,
         (i2c_write_go (bump ctx) rest envs).envs⟩) := by
  refine ⟨fun ht => ?_, fun ht hn => ?_, fun ht hn => ?_⟩
  · constructor <;> simp [i2c_read_go, i2c_write_go, ht]
  · constructor <;> simp [i2c_read_go, i2c_write_go, ht, hn]
  · constructor <;> simp [i2c_read_go, i2c_write_go, ht, hn]

/-- Witness for C1: a timing-out first byte fails a read with the
timeout error after a soft-reset write; a NACK status fails a write
with the I/O error after a soft-reset write; a clean completion
transfers the byte. -/
theorem claim_C1_per_byte_witness :
    i2c_read_go ⟨5, true, false⟩ 1 [⟨true, 0, 0⟩] =
      ⟨errAgain, read_setup ⟨5, true, false⟩ ++
        [Action.wr I2CM_CONTROL0 0x01], bump ⟨5, true, false⟩, [], []⟩ ∧
    i2c_write_go ⟨5, true, false⟩ [7] [⟨false, 8, 0⟩] =
      ⟨errIoErr, write_setup ⟨5, true, false⟩ 7 ++
        [Action.wr I2CM_CONTROL0 0x01], bump ⟨5, true, false⟩, [], []⟩ ∧
    i2c_read_go ⟨5, true, false⟩ 1 [⟨false, 2, 0x41⟩] =
      ⟨(i2c_read_go (bump ⟨5, true, false⟩) 0 []).ret,
       read_setup ⟨5, true, false⟩ ++
         [Action.mod I2CM_INTERFACE_CONTROL0 I2CM_WR_MASK 0] ++
         (i2c_read_go (bump ⟨5, true, false⟩) 0 []).trace,
       (i2c_read_go (bump ⟨5, true, false⟩) 0 []).ctx,
       (0x41 &&& 0xff) :: (i2c_read_go (bump ⟨5, true, false⟩) 0 []).bytes,
       (i2c_read_go (bump ⟨5, true, false⟩) 0 []).envs⟩ :=
  ⟨((claim_C1_per_byte ⟨5, true, false⟩ ⟨true, 0, 0⟩ [] 0 7 []).1 rfl).1,
   ((claim_C1_per_byte ⟨5, true, false⟩ ⟨false, 8, 0⟩ [] 0 7 []).2.1 rfl
     (by decide)).2,
   ((claim_C1_per_byte ⟨5, true, false⟩ ⟨false, 2, 0x41⟩ [] 0 7 []).2.2 rfl
     (by decide)).1⟩

/-- Claim C9: when no register pointer has been established yet in the
batch, the first byte of a write message becomes the slave register
address and only the remaining bytes are transmitted as data; in
particular a batch consisting of one single-byte write message (to an
ordinary address) establishes the register pointer, transmits no data
byte, and still reports success (returns the message count 1). -/
theorem claim_C9_first_write_byte :
    (∀ (ctx : I2cCtx) (b : Nat) (rest : List Nat) (envs : List ByteEnv),
      ctx.is_regaddr = false →
      dw_hdmi_qp_i2c_write ctx (b :: rest) envs =
        i2c_write_go
          { ctx with slave_reg := b % 256, is_regaddr := true } rest envs) ∧
    (∀ (ctx : I2cCtx) (a b : Nat) (envs : List ByteEnv),
      a % 256 ≠ DDC_CI_ADDR → a ≠ DDC_SEGMENT_ADDR →
      a % 256 ≠ DDC_SEGMENT_ADDR →
      (dw_hdmi_qp_i2c_xfer ctx [⟨a, false, [b]⟩] envs).ret = 1 ∧
      (dw_hdmi_qp_i2c_xfer ctx [⟨a, false, [b]⟩] envs).ctx.slave_reg =
        b % 256 ∧
      (dw_hdmi_qp_i2c_xfer ctx [⟨a, false, [b]⟩] envs).ctx.is_regaddr =
        true ∧
      ∀ v, Action.wr I2CM_INTERFACE_WRDATA_0_3 v ∉
        (dw_hdmi_qp_i2c_xfer ctx [⟨a, false, [b]⟩] envs).trace) := by
  constructor
  · intro ctx b rest envs h
    simp [dw_hdmi_qp_i2c_write, h]
  · intro ctx a b envs h37 h30 h30m
    simp [dw_hdmi_qp_i2c_xfer, xfer_msgs, dw_hdmi_qp_i2c_write,
      i2c_write_go, h37, h30, h30m]

/-- Witness for C9: a one-byte write message 0xAB to address 0x50 with
no prior register pointer returns success (1), leaves the register
pointer at 0xAB, and puts no byte in the write-data register. -/
theorem claim_C9_first_write_byte_witness :
    dw_hdmi_qp_i2c_write ⟨0, false, false⟩ [0xAB] [] =
      i2c_write_go ⟨0xAB % 256, true, false⟩ [] [] ∧
    (dw_hdmi_qp_i2c_xfer ⟨0, false, false⟩ [⟨0x50, false, [0xAB]⟩] []).ret =
      1 ∧
    (dw_hdmi_qp_i2c_xfer ⟨0, false, false⟩
      [⟨0x50, false, [0xAB]⟩] []).ctx.slave_reg = 0xAB % 256 := by
  have h1 := claim_C9_first_write_byte.1 ⟨0, false, false⟩ 0xAB [] [] rfl
  have h2 := claim_C9_first_write_byte.2 ⟨0, false, false⟩ 0x50 0xAB []
    (by decide) (by decide) (by decide)
  exact ⟨h1, h2.1, h2.2.1⟩

/-- Counterexample to claim C3 as stated: an atomic enable with an HDMI
connector and a TMDS character rate above 340000000, but a sink that
does not report SCDC support, performs no SCDC version read, no local
scrambling-config write, and leaves the scrambling-enabled flag clear —
`dw_hdmi_qp_enable_scramb` returns early when
`dw_hdmi_qp_supports_scrambling` fails. -/
theorem claim_C3_counterexample :
    (dw_hdmi_qp_bridge_atomic_enable ⟨none, false, false⟩
      (some ⟨⟨true, false, false⟩, ConnStatus.connected⟩) true
      400000000 1).1.scramb_enabled = false ∧
    Action.scdc_readb SCDC_SINK_VERSION ∉
      (dw_hdmi_qp_bridge_atomic_enable ⟨none, false, false⟩
        (some ⟨⟨true, false, false⟩, ConnStatus.connected⟩) true
        400000000 1).2 ∧
    Action.wr SCRAMB_CONFIG0 1 ∉
      (dw_hdmi_qp_bridge_atomic_enable ⟨none, false, false⟩
        (some ⟨⟨true, false, false⟩, ConnStatus.connected⟩) true
        400000000 1).2 := by
  decide

/-- Claim C3 as amended: for every atomic enable where the connector is
HDMI, the sink reports SCDC support and SCDC scrambling support, and
the negotiated TMDS character rate exceeds 340000000, the enable path
runs the full scrambling sequence — reads the sink SCDC version, writes
the minimum of sink version and the source's supported version (1) to
the SCDC source-version register, instructs the sink to raise the TMDS
clock ratio and enable scrambling, arms the periodic recheck with a
3000 ms delay, writes 1 to the local scrambling config register, and
sets the scrambling-enabled flag. -/
theorem claim_C3_amended (st : HdmiState) (c : Connector) (rate ver : Nat)
    (hh : c.info.is_hdmi = true) (hs : c.info.scdc_supported = true)
    (hscr : c.info.scrambling_supported = true)
    (hr : rate > HDMI14_MAX_TMDSCLK) :
    dw_hdmi_qp_bridge_atomic_enable st (some c) true rate ver =
      ({ st with
          connector := some c
          scramb_enabled := true
          work_scheduled := true },
       [Action.scdc_readb SCDC_SINK_VERSION,
        Action.scdc_writeb SCDC_SOURCE_VERSION
          (min (ver % 256) SCDC_MIN_SOURCE_VERSION),
        Action.scdc_set_tmds_high true,
        Action.scdc_set_scrambling true,
        Action.schedule_scramb_work SCRAMB_POLL_DELAY_MS,
        Action.wr SCRAMB_CONFIG0 1,
        Action.phy_init,
        Action.mod HDCP2LOGIC_CONFIG0 HDCP2_BYPASS HDCP2_BYPASS,
        Action.mod LINK_CONFIG0 OPMODE_DVI 0,
        Action.update_infoframes]) := by
  simp [dw_hdmi_qp_bridge_atomic_enable, dw_hdmi_qp_enable_scramb,
    dw_hdmi_qp_supports_scrambling, dw_hdmi_qp_set_scramb, hh, hs, hscr, hr]

/-- Witness for the amended C3: the full scrambling-enable trace on a
concrete state, connector and rate 400 MHz with sink version 3. -/
theorem claim_C3_amended_witness :
    dw_hdmi_qp_bridge_atomic_enable ⟨none, false, false⟩
      (some ⟨⟨true, true, true⟩, ConnStatus.connected⟩) true 400000000 3 =
      (⟨some ⟨⟨true, true, true⟩, ConnStatus.connected⟩, true, true⟩,
       [Action.scdc_readb SCDC_SINK_VERSION,
        Action.scdc_writeb SCDC_SOURCE_VERSION
          (min (3 % 256) SCDC_MIN_SOURCE_VERSION),
        Action.scdc_set_tmds_high true,
        Action.scdc_set_scrambling true,
        Action.schedule_scramb_work SCRAMB_POLL_DELAY_MS,
        Action.wr SCRAMB_CONFIG0 1,
        Action.phy_init,
        Action.mod HDCP2LOGIC_CONFIG0 HDCP2_BYPASS HDCP2_BYPASS,
        Action.mod LINK_CONFIG0 OPMODE_DVI 0,
        Action.update_infoframes]) :=
  claim_C3_amended ⟨none, false, false⟩
    ⟨⟨true, true, true⟩, ConnStatus.connected⟩ 400000000 3
    rfl rfl rfl (by decide)

/-- Claim C8: a disable of the scrambling state machine with the flag
set cancels the periodic recheck synchronously (afterwards no recheck
is armed), writes 0 to the local scrambling config register, and issues
the SCDC writes dropping scrambling and the high clock ratio exactly
when the connector status is not disconnected; with the flag clear it
does nothing. -/
theorem claim_C8_disable_scramb (st : HdmiState) (c : Connector)
    (hc : st.connector = some c) :
    (st.scramb_enabled = true →
      (c.status ≠ ConnStatus.disconnected →
        dw_hdmi_qp_disable_scramb st =
          ({ st with scramb_enabled := false, work_scheduled := false },
           [Action.cancel_scramb_work_sync, Action.wr SCRAMB_CONFIG0 0,
            Action.scdc_set_scrambling false,
            Action.scdc_set_tmds_high false])) ∧
      (c.status = ConnStatus.disconnected →
        dw_hdmi_qp_disable_scramb st =
          ({ st with scramb_enabled := false, work_scheduled := false },
           [Action.cancel_scramb_work_sync, Action.wr SCRAMB_CONFIG0 0])) ∧
      (dw_hdmi_qp_disable_scramb st).1.work_scheduled = false) ∧
    (st.scramb_enabled = false →
      dw_hdmi_qp_disable_scramb st = (st, [])) := by
  constructor
  · intro hen
    refine ⟨fun hst => ?_, fun hst => ?_, ?_⟩
    · simp [dw_hdmi_qp_disable_scramb, hen, hc, hst]
    · simp [dw_hdmi_qp_disable_scramb, hen, hc, hst]
    · by_cases hst : c.status = ConnStatus.disconnected <;>
        simp [dw_hdmi_qp_disable_scramb, hen, hc, hst]
  · intro hen
    simp [dw_hdmi_qp_disable_scramb, hen]

/-- Witness for C8: disable on an enabled, connected state produces the
cancel, the config clear and the two SCDC drops; on an enabled but
disconnected state only the cancel and the config clear; on a
non-enabled state nothing. -/
theorem claim_C8_disable_scramb_witness :
    dw_hdmi_qp_disable_scramb
      ⟨some ⟨⟨true, true, true⟩, ConnStatus.connected⟩, true, true⟩ =
      (⟨some ⟨⟨true, true, true⟩, ConnStatus.connected⟩, false, false⟩,
       [Action.cancel_scramb_work_sync, Action.wr SCRAMB_CONFIG0 0,
        Action.scdc_set_scrambling false,
        Action.scdc_set_tmds_high false]) ∧
    dw_hdmi_qp_disable_scramb
      ⟨some ⟨⟨true, true, true⟩, ConnStatus.disconnected⟩, true, true⟩ =
      (⟨some ⟨⟨true, true, true⟩, ConnStatus.disconnected⟩, false, false⟩,
       [Action.cancel_scramb_work_sync, Action.wr SCRAMB_CONFIG0 0]) ∧
    dw_hdmi_qp_disable_scramb
      ⟨some ⟨⟨true, true, true⟩, ConnStatus.connected⟩, false, true⟩ =
      (⟨some ⟨⟨true, true, true⟩, ConnStatus.connected⟩, false, true⟩,
       []) := by
  have h1 := claim_C8_disable_scramb
    ⟨some ⟨⟨true, true, true⟩, ConnStatus.connected⟩, true, true⟩
    ⟨⟨true, true, true⟩, ConnStatus.connected⟩ rfl
  have h2 := claim_C8_disable_scramb
    ⟨some ⟨⟨true, true, true⟩, ConnStatus.disconnected⟩, true, true⟩
    ⟨⟨true, true, true⟩, ConnStatus.disconnected⟩ rfl
  have h3 := claim_C8_disable_scramb
    ⟨some ⟨⟨true, true, true⟩, ConnStatus.connected⟩, false, true⟩
    ⟨⟨true, true, true⟩, ConnStatus.connected⟩ rfl
  exact ⟨((h1.1 rfl).1 (by decide)), ((h2.1 rfl).2.1 rfl), h3.2 rfl⟩

end DwHdmiQp
